import Mathlib

/-!
Shallow embedding of the Flask todo REST service
(`backend/src/todo_api/app.py`, legacy `backend/app.py`) and of the
store schema used by its test suite (`backend/tests/conftest.py`).

Modelling conventions:
* JSON scalar values are `JVal`; a parsed JSON object body is `Body`,
  recording for each of the three recognized keys whether the key is
  present (`Option JVal`, `none` = key absent, `some .null` = explicit
  JSON null) plus a count of unrecognized keys.  A parsed request body
  is `Option Body` (`none` = JSON null).
* Timestamps are abstracted to `Nat` ticks of a request clock `now`;
  `datetime.isoformat` becomes the injective encoding `isoformat`.
* The PostgreSQL table is `DB`: a list of rows in physical (insertion)
  order plus the SERIAL sequence counter `nextId`.  Per the schema in
  `backend/tests/conftest.py`, `created_at` and `updated_at` default to
  the current timestamp on INSERT, and the BEFORE UPDATE trigger
  `update_todos_updated_at` sets `updated_at` to the current timestamp
  on every UPDATE, so `RETURNING *` reports the refreshed value.
* `SELECT * FROM todos ORDER BY created_at DESC` is modelled as a
  stable sort of the physical row list on `created_at`, descending;
  the statement specifies no further sort key.
* Each handler returns its response, the resulting table state, and
  the trace of statements it executed against the store (`DBOp`).
  Store connectivity failures (the 500 paths) are not modelled: the
  embedded store always answers.
-/

namespace TodoSpec

/-- A JSON scalar value as it travels between request bodies and the store. -/
inductive JVal where
  | str (s : String)
  | bool (b : Bool)
  | num (n : Int)
  | null
  deriving DecidableEq, Repr

/-- A parsed JSON object request body: presence and value of each of the three
recognized keys, plus the number of unrecognized keys also present. -/
structure Body where
  title : Option JVal
  description : Option JVal
  completed : Option JVal
  otherKeys : Nat
  deriving DecidableEq, Repr

/-- Python truthiness of a parsed body: `not data` holds for JSON null
(`none`) and for the empty object. -/
def Body.falsy (d : Body) : Bool :=
  d.title.isNone && d.description.isNone && d.completed.isNone && (d.otherKeys == 0)

/-- `not data` in the handlers: true for a null body or an empty object. -/
def notData : Option Body → Bool
  | none => true
  | some d => d.falsy

/-- One stored row of the `todos` table (schema in `backend/tests/conftest.py`). -/
structure Row where
  id : Nat
  title : JVal
  description : JVal
  completed : JVal
  created_at : Nat
  updated_at : Nat
  deriving DecidableEq, Repr

/-- The `todos` table: rows in physical insertion order and the SERIAL
sequence counter for `id`. -/
structure DB where
  rows : List Row
  nextId : Nat
  deriving DecidableEq, Repr

/-- Store well-formedness: every stored id was drawn from the SERIAL
sequence, hence is below the next value to be issued. -/
def DB.wf (db : DB) : Prop := ∀ r ∈ db.rows, r.id < db.nextId

instance (db : DB) : Decidable db.wf := by
  unfold DB.wf; infer_instance

/-- A Python value as seen by `serialize_datetime`: either a `datetime`
carrying a timestamp, or a plain JSON-serializable value. -/
inductive PyVal where
  | dt (t : Nat)
  | str (s : String)
  | bool (b : Bool)
  | num (n : Int)
  | null
  deriving DecidableEq, Repr

/-- `datetime.isoformat`, abstracted: an injective rendering of the
timestamp tick as text. -/
def isoformat (t : Nat) : String := toString t

/-- `serialize_datetime` from `app.py`: a `datetime` becomes its
isoformat string, every other value is returned unchanged. -/
def serialize_datetime : PyVal → PyVal
  | .dt t => .str (isoformat t)
  | v => v

/-- The dictionary built from a fetched row (`dict(todo)`), before and
after timestamp serialization. -/
structure TodoDict where
  id : Nat
  title : JVal
  description : JVal
  completed : JVal
  created_at : PyVal
  updated_at : PyVal
  deriving DecidableEq, Repr

/-- `dict(todo)` for a fetched row: timestamps arrive as `datetime`s. -/
def rowToDict (r : Row) : TodoDict :=
  { id := r.id, title := r.title, description := r.description,
    completed := r.completed, created_at := .dt r.created_at,
    updated_at := .dt r.updated_at }

/-- The two per-handler lines applying `serialize_datetime` to the
`created_at` and `updated_at` entries of the dictionary. -/
def serializeTodoDict (d : TodoDict) : TodoDict :=
  { d with created_at := serialize_datetime d.created_at,
           updated_at := serialize_datetime d.updated_at }

/-- Columns that can appear in the dynamically built UPDATE statement. -/
inductive Col where
  | title
  | description
  | completed
  deriving DecidableEq, Repr

/-- One SQL statement executed against the store, as recorded in a
handler's trace. -/
inductive DBOp where
  | selectAllOrderByCreatedAtDesc
  | selectById (id : Nat)
  | insert (title description completed : JVal)
  | update (cols : List Col) (vals : List JVal) (id : Nat)
  | deleteById (id : Nat)
  deriving DecidableEq, Repr

/-- A JSON response body. -/
inductive Resp where
  | err (msg : String)
  | todo (d : TodoDict)
  | todos (l : List TodoDict)
  | msg (m : String)
  | rootInfo (message version : String) (endpoints : List (String × String))
  | health (status database : String)
  deriving DecidableEq, Repr

/-- A handler result: JSON body plus HTTP status code. -/
structure HResp where
  body : Resp
  status : Nat
  deriving DecidableEq, Repr

/-- `SELECT * FROM todos WHERE id = %s` followed by `fetchone()`. -/
def DB.lookup (db : DB) (todo_id : Nat) : Option Row :=
  db.rows.find? (fun r => r.id == todo_id)

/-- Sort key of `ORDER BY created_at DESC`: later (or equal) creation
instants come first.  The statement names no other key. -/
def createdDesc (a b : Row) : Prop := b.created_at ≤ a.created_at

instance : DecidableRel createdDesc := fun a b => Nat.decLe b.created_at a.created_at

instance : IsTotal Row createdDesc := ⟨fun a b => (Nat.le_total a.created_at b.created_at).symm⟩

instance : IsTrans Row createdDesc := ⟨fun _ _ _ h h2 => Nat.le_trans h2 h⟩

/-- `SELECT * FROM todos ORDER BY created_at DESC`: the physical row
list, stably sorted on `created_at` descending. -/
def DB.selectAllOrdered (db : DB) : List Row :=
  db.rows.insertionSort createdDesc

/-- `INSERT INTO todos (title, description, completed) VALUES (%s, %s, %s)
RETURNING *`: the SERIAL sequence supplies `id`, and both timestamp
columns take their `DEFAULT CURRENT_TIMESTAMP`. -/
def DB.insertRow (db : DB) (now : Nat) (title description completed : JVal) : Row × DB :=
  let r : Row := { id := db.nextId, title := title, description := description,
                   completed := completed, created_at := now, updated_at := now }
  (r, { rows := db.rows ++ [r], nextId := db.nextId + 1 })

/-- Apply one `SET column = value` pair of the UPDATE statement. -/
def Row.applyCol (r : Row) : Col × JVal → Row
  | (.title, v) => { r with title := v }
  | (.description, v) => { r with description := v }
  | (.completed, v) => { r with completed := v }

/-- The effect of the dynamically built UPDATE on the matched row: each
listed column is set to its bound value, then the BEFORE UPDATE trigger
`update_todos_updated_at` (from `backend/tests/conftest.py`) sets
`updated_at` to the current timestamp. -/
def Row.applyUpdate (r : Row) (cols : List Col) (vals : List JVal) (now : Nat) : Row :=
  { (cols.zip vals).foldl Row.applyCol r with updated_at := now }

/-- `UPDATE todos SET ... WHERE id = %s RETURNING *` followed by
`fetchone()`: the matched row (if any) is rewritten in place and the
post-trigger row is returned. -/
def DB.execUpdate (db : DB) (todo_id : Nat) (cols : List Col) (vals : List JVal)
    (now : Nat) : Option Row × DB :=
  match db.lookup todo_id with
  | none => (none, db)
  | some r =>
    let r2 := r.applyUpdate cols vals now
    (some r2, { db with rows := db.rows.map (fun x => if x.id == todo_id then r2 else x) })

/-- `DELETE FROM todos WHERE id = %s`. -/
def DB.deleteById (db : DB) (todo_id : Nat) : DB :=
  { db with rows := db.rows.filter (fun r => !(r.id == todo_id)) }

/-- The `update_fields` list built by `update_todo`: one entry per
recognized key present in the body, accumulated in source order
title, description, completed. -/
def update_fields (d : Body) : List Col :=
  (if d.title.isSome then [Col.title] else []) ++
  (if d.description.isSome then [Col.description] else []) ++
  (if d.completed.isSome then [Col.completed] else [])

/-- The `update_values` list built by `update_todo`, in lockstep with
`update_fields` (the trailing `todo_id` bound to the WHERE clause is
carried separately). -/
def update_values (d : Body) : List JVal :=
  d.title.toList ++ d.description.toList ++ d.completed.toList

/-- The endpoint directory returned by the root endpoint (identical in
both application modules). -/
def endpointDirectory : List (String × String) :=
  [("GET /health", "Health check"),
   ("GET /api/todos", "Get all todos"),
   ("GET /api/todos/:id", "Get a specific todo"),
   ("POST /api/todos", "Create a new todo"),
   ("PUT /api/todos/:id", "Update a todo"),
   ("DELETE /api/todos/:id", "Delete a todo")]

namespace TodoApi

/-- `health_check` in `todo_api/app.py`: the embedded store always
answers, so the probe connect/close succeeds. -/
def health_check : HResp :=
  { body := .health "healthy" "connected", status := 200 }

/-- `get_todos` in `todo_api/app.py`: run the ordered SELECT, then
serialize the timestamps of each fetched row. -/
def get_todos (db : DB) : HResp × DB × List DBOp :=
  let todos := db.selectAllOrdered
  let todos_list := todos.map (fun t => serializeTodoDict (rowToDict t))
  ({ body := .todos todos_list, status := 200 }, db, [.selectAllOrderByCreatedAtDesc])

/-- `get_todo` in `todo_api/app.py`. -/
def get_todo (db : DB) (todo_id : Nat) : HResp × DB × List DBOp :=
  match db.lookup todo_id with
  | none => ({ body := .err "Todo not found", status := 404 }, db, [.selectById todo_id])
  | some todo =>
    ({ body := .todo (serializeTodoDict (rowToDict todo)), status := 200 }, db,
      [.selectById todo_id])

/-- `create_todo` in `todo_api/app.py`.  The guard
`if not data or 'title' not in data` collapses, for object bodies, to
absence of the `title` key: an empty (falsy) object also lacks it. -/
def create_todo (db : DB) (now : Nat) (data : Option Body) : HResp × DB × List DBOp :=
  match data with
  | none => ({ body := .err "Title is required", status := 400 }, db, [])
  | some d =>
    match d.title with
    | none => ({ body := .err "Title is required", status := 400 }, db, [])
    | some title =>
      let description := d.description.getD (.str "")
      let completed := d.completed.getD (.bool false)
      let (new_todo, db2) := db.insertRow now title description completed
      ({ body := .todo (serializeTodoDict (rowToDict new_todo)), status := 201 }, db2,
        [.insert title description completed])

/-- `update_todo` in `todo_api/app.py`: empty-body check, existence
check, dynamic statement construction, single UPDATE with RETURNING. -/
def update_todo (db : DB) (now : Nat) (todo_id : Nat) (data : Option Body) :
    HResp × DB × List DBOp :=
  match data with
  | none => ({ body := .err "No data provided", status := 400 }, db, [])
  | some d =>
    if d.falsy then ({ body := .err "No data provided", status := 400 }, db, [])
    else
      match db.lookup todo_id with
      | none => ({ body := .err "Todo not found", status := 404 }, db, [.selectById todo_id])
      | some _ =>
        let flds := update_fields d
        let vals := update_values d
        if flds.isEmpty then
          ({ body := .err "No valid fields to update", status := 400 }, db,
            [.selectById todo_id])
        else
          match db.execUpdate todo_id flds vals now with
          | (some updated_todo, db2) =>
            ({ body := .todo (serializeTodoDict (rowToDict updated_todo)), status := 200 },
              db2, [.selectById todo_id, .update flds vals todo_id])
          | (none, db2) =>
            -- unreachable after the existence check: `dict(None)` would raise,
            -- landing in the generic `except` and returning 500
            ({ body := .err "internal error", status := 500 }, db2,
              [.selectById todo_id, .update flds vals todo_id])

/-- `delete_todo` in `todo_api/app.py`: existence check, then DELETE. -/
def delete_todo (db : DB) (todo_id : Nat) : HResp × DB × List DBOp :=
  match db.lookup todo_id with
  | none => ({ body := .err "Todo not found", status := 404 }, db, [.selectById todo_id])
  | some _ =>
    ({ body := .msg "Todo deleted successfully", status := 200 }, db.deleteById todo_id,
      [.selectById todo_id, .deleteById todo_id])

/-- `root` in `todo_api/app.py`: version is `todo_api.__version__`. -/
def root : HResp :=
  { body := .rootInfo "Todo List API" "1.0.0" endpointDirectory, status := 200 }

end TodoApi

namespace Legacy

/-- `health_check` in the legacy module-level `backend/app.py`. -/
def health_check : HResp :=
  { body := .health "healthy" "connected", status := 200 }

/-- `get_todos` in `backend/app.py`. -/
def get_todos (db : DB) : HResp × DB × List DBOp :=
  let todos := db.selectAllOrdered
  let todos_list := todos.map (fun t => serializeTodoDict (rowToDict t))
  ({ body := .todos todos_list, status := 200 }, db, [.selectAllOrderByCreatedAtDesc])

/-- `get_todo` in `backend/app.py`. -/
def get_todo (db : DB) (todo_id : Nat) : HResp × DB × List DBOp :=
  match db.lookup todo_id with
  | none => ({ body := .err "Todo not found", status := 404 }, db, [.selectById todo_id])
  | some todo =>
    ({ body := .todo (serializeTodoDict (rowToDict todo)), status := 200 }, db,
      [.selectById todo_id])

/-- `create_todo` in `backend/app.py` (same `not data or 'title' not in data`
guard as the factory module). -/
def create_todo (db : DB) (now : Nat) (data : Option Body) : HResp × DB × List DBOp :=
  match data with
  | none => ({ body := .err "Title is required", status := 400 }, db, [])
  | some d =>
    match d.title with
    | none => ({ body := .err "Title is required", status := 400 }, db, [])
    | some title =>
      let description := d.description.getD (.str "")
      let completed := d.completed.getD (.bool false)
      let (new_todo, db2) := db.insertRow now title description completed
      ({ body := .todo (serializeTodoDict (rowToDict new_todo)), status := 201 }, db2,
        [.insert title description completed])

/-- `update_todo` in `backend/app.py`. -/
def update_todo (db : DB) (now : Nat) (todo_id : Nat) (data : Option Body) :
    HResp × DB × List DBOp :=
  match data with
  | none => ({ body := .err "No data provided", status := 400 }, db, [])
  | some d =>
    if d.falsy then ({ body := .err "No data provided", status := 400 }, db, [])
    else
      match db.lookup todo_id with
      | none => ({ body := .err "Todo not found", status := 404 }, db, [.selectById todo_id])
      | some _ =>
        let flds := update_fields d
        let vals := update_values d
        if flds.isEmpty then
          ({ body := .err "No valid fields to update", status := 400 }, db,
            [.selectById todo_id])
        else
          match db.execUpdate todo_id flds vals now with
          | (some updated_todo, db2) =>
            ({ body := .todo (serializeTodoDict (rowToDict updated_todo)), status := 200 },
              db2, [.selectById todo_id, .update flds vals todo_id])
          | (none, db2) =>
            ({ body := .err "internal error", status := 500 }, db2,
              [.selectById todo_id, .update flds vals todo_id])

/-- `delete_todo` in `backend/app.py`. -/
def delete_todo (db : DB) (todo_id : Nat) : HResp × DB × List DBOp :=
  match db.lookup todo_id with
  | none => ({ body := .err "Todo not found", status := 404 }, db, [.selectById todo_id])
  | some _ =>
    ({ body := .msg "Todo deleted successfully", status := 200 }, db.deleteById todo_id,
      [.selectById todo_id, .deleteById todo_id])

/-- `root` in `backend/app.py`: the version literal is the string `1.0`. -/
def root : HResp :=
  { body := .rootInfo "Todo List API" "1.0" endpointDirectory, status := 200 }

end Legacy

/-- One inbound API request, for reasoning about request sequences. -/
inductive Req where
  | list
  | get (id : Nat)
  | post (data : Option Body)
  | put (id : Nat) (data : Option Body)
  | del (id : Nat)
  deriving DecidableEq, Repr

/-- Dispatch one request to its handler at clock tick `now`. -/
def step (db : DB) (now : Nat) : Req → HResp × DB × List DBOp
  | .list => TodoApi.get_todos db
  | .get id => TodoApi.get_todo db id
  | .post data => TodoApi.create_todo db now data
  | .put id data => TodoApi.update_todo db now id data
  | .del id => TodoApi.delete_todo db id

/-- The table state after serving a sequence of (clock, request) pairs. -/
def runSeq (db : DB) (l : List (Nat × Req)) : DB :=
  l.foldl (fun d p => (step d p.1 p.2).2.1) db

/-- A dictionary whose two timestamp entries are isoformat strings. -/
def TodoDict.tsSerialized (d : TodoDict) : Prop :=
  (∃ t, d.created_at = .str (isoformat t)) ∧ (∃ t, d.updated_at = .str (isoformat t))

/-! ### Concrete fixtures used by witnesses and counterexamples -/

def exRow1 : Row :=
  { id := 1, title := .str "a", description := .str "", completed := .bool false,
    created_at := 5, updated_at := 5 }

def exRow2 : Row :=
  { id := 2, title := .str "b", description := .str "", completed := .bool false,
    created_at := 5, updated_at := 5 }

/-- Two rows created at the same instant, ids in insertion order. -/
def exDB : DB := { rows := [exRow1, exRow2], nextId := 3 }

def exDB1 : DB := { rows := [exRow1], nextId := 2 }

def titleBody : Body :=
  { title := some (.str "t2"), description := none, completed := none, otherKeys := 0 }

def emptyBody : Body :=
  { title := none, description := none, completed := none, otherKeys := 0 }

def junkBody : Body :=
  { title := none, description := none, completed := none, otherKeys := 2 }

/-- A mixed creation body: title and completed present, description omitted. -/
def mixedBody : Body :=
  { title := some (.str "X"), description := none, completed := some (.bool true),
    otherKeys := 0 }

/-! ### Helper lemmas -/

theorem update_fields_ne_nil_falsy {d : Body} (h : update_fields d ≠ []) :
    d.falsy = false := by
  rcases d with ⟨t, ds, c, k⟩
  cases t <;> cases ds <;> cases c <;> simp_all [update_fields, Body.falsy]

theorem mem_update_fields_title {d : Body} :
    Col.title ∈ update_fields d ↔ d.title.isSome := by
  rcases d with ⟨t, ds, c, k⟩
  cases t <;> cases ds <;> cases c <;> simp [update_fields]

theorem mem_update_fields_description {d : Body} :
    Col.description ∈ update_fields d ↔ d.description.isSome := by
  rcases d with ⟨t, ds, c, k⟩
  cases t <;> cases ds <;> cases c <;> simp [update_fields]

theorem mem_update_fields_completed {d : Body} :
    Col.completed ∈ update_fields d ↔ d.completed.isSome := by
  rcases d with ⟨t, ds, c, k⟩
  cases t <;> cases ds <;> cases c <;> simp [update_fields]

/-- `update_fields` lists exactly the present keys, in the stable source
order title, description, completed. -/
theorem update_fields_eq_filter (d : Body) :
    update_fields d = [Col.title, Col.description, Col.completed].filter
      (fun c => match c with
        | Col.title => d.title.isSome
        | Col.description => d.description.isSome
        | Col.completed => d.completed.isSome) := by
  rcases d with ⟨t, ds, c, k⟩
  cases t <;> cases ds <;> cases c <;> simp [update_fields, List.filter]

theorem foldl_applyCol_id (ps : List (Col × JVal)) (r : Row) :
    (ps.foldl Row.applyCol r).id = r.id := by
  induction ps generalizing r with
  | nil => rfl
  | cons p ps ih =>
    rcases p with ⟨c, v⟩
    cases c <;> simp [List.foldl, Row.applyCol, ih]

theorem foldl_applyCol_created_at (ps : List (Col × JVal)) (r : Row) :
    (ps.foldl Row.applyCol r).created_at = r.created_at := by
  induction ps generalizing r with
  | nil => rfl
  | cons p ps ih =>
    rcases p with ⟨c, v⟩
    cases c <;> simp [List.foldl, Row.applyCol, ih]

theorem foldl_applyCol_title (ps : List (Col × JVal)) (r : Row)
    (h : ∀ v, (Col.title, v) ∉ ps) : (ps.foldl Row.applyCol r).title = r.title := by
  induction ps generalizing r with
  | nil => rfl
  | cons p ps ih =>
    rcases p with ⟨c, v⟩
    cases c with
    | title => exact absurd (List.mem_cons_self _ _) (fun hc => h v hc)
    | description =>
      simp only [List.foldl, Row.applyCol]
      exact ih _ (fun v hv => h v (List.mem_cons_of_mem _ hv))
    | completed =>
      simp only [List.foldl, Row.applyCol]
      exact ih _ (fun v hv => h v (List.mem_cons_of_mem _ hv))

theorem foldl_applyCol_description (ps : List (Col × JVal)) (r : Row)
    (h : ∀ v, (Col.description, v) ∉ ps) :
    (ps.foldl Row.applyCol r).description = r.description := by
  induction ps generalizing r with
  | nil => rfl
  | cons p ps ih =>
    rcases p with ⟨c, v⟩
    cases c with
    | description => exact absurd (List.mem_cons_self _ _) (fun hc => h v hc)
    | title =>
      simp only [List.foldl, Row.applyCol]
      exact ih _ (fun v hv => h v (List.mem_cons_of_mem _ hv))
    | completed =>
      simp only [List.foldl, Row.applyCol]
      exact ih _ (fun v hv => h v (List.mem_cons_of_mem _ hv))

theorem foldl_applyCol_completed (ps : List (Col × JVal)) (r : Row)
    (h : ∀ v, (Col.completed, v) ∉ ps) :
    (ps.foldl Row.applyCol r).completed = r.completed := by
  induction ps generalizing r with
  | nil => rfl
  | cons p ps ih =>
    rcases p with ⟨c, v⟩
    cases c with
    | completed => exact absurd (List.mem_cons_self _ _) (fun hc => h v hc)
    | title =>
      simp only [List.foldl, Row.applyCol]
      exact ih _ (fun v hv => h v (List.mem_cons_of_mem _ hv))
    | description =>
      simp only [List.foldl, Row.applyCol]
      exact ih _ (fun v hv => h v (List.mem_cons_of_mem _ hv))

theorem applyUpdate_id (r : Row) (cols : List Col) (vals : List JVal) (now : Nat) :
    (r.applyUpdate cols vals now).id = r.id := by
  simp [Row.applyUpdate, foldl_applyCol_id]

theorem applyUpdate_created_at (r : Row) (cols : List Col) (vals : List JVal) (now : Nat) :
    (r.applyUpdate cols vals now).created_at = r.created_at := by
  simp [Row.applyUpdate, foldl_applyCol_created_at]

theorem lookup_eq_none_iff {db : DB} {X : Nat} :
    db.lookup X = none ↔ ∀ r ∈ db.rows, r.id ≠ X := by
  simp [DB.lookup, List.find?_eq_none]

theorem lookup_id_mem {db : DB} {X : Nat} {r : Row} (h : db.lookup X = some r) :
    r.id = X ∧ r ∈ db.rows := by
  refine ⟨?_, List.mem_of_find?_eq_some h⟩
  have := List.find?_some h
  simpa using this

theorem find?_map_update (tid : Nat) (r2 : Row) (h2 : r2.id = tid) :
    ∀ (l : List Row) (r : Row), l.find? (fun x => x.id == tid) = some r →
      (l.map (fun x => if x.id == tid then r2 else x)).find? (fun x => x.id == tid) =
        some r2 := by
  intro l
  induction l with
  | nil => intro r h; simp at h
  | cons a as ih =>
    intro r h
    by_cases ha : (a.id == tid) = true
    · simp [List.find?, ha, h2]
    · simp only [List.find?, ha] at h
      simp only [List.map, List.find?, ha, if_neg (by simpa using ha)]
      simpa [ha] using ih r h

/-- The id `X` is not in the table and can never be issued again by the
SERIAL sequence. -/
def freshFor (db : DB) (X : Nat) : Prop :=
  X < db.nextId ∧ ∀ r ∈ db.rows, r.id ≠ X

theorem freshFor_lookup_none {db : DB} {X : Nat} (h : freshFor db X) :
    db.lookup X = none :=
  lookup_eq_none_iff.mpr h.2

theorem freshFor_insertRow {db : DB} {X : Nat} (h : freshFor db X)
    (now : Nat) (t ds c : JVal) : freshFor (db.insertRow now t ds c).2 X := by
  rcases h with ⟨hlt, hmem⟩
  refine ⟨Nat.lt_succ_of_lt hlt, ?_⟩
  intro r hr
  rcases List.mem_append.mp hr with hr | hr
  · exact hmem r hr
  · rcases List.mem_singleton.mp hr with rfl
    exact Nat.ne_of_gt hlt

theorem freshFor_execUpdate {db : DB} {X : Nat} (h : freshFor db X)
    (tid : Nat) (cols : List Col) (vals : List JVal) (now : Nat) :
    freshFor (db.execUpdate tid cols vals now).2 X := by
  rcases h with ⟨hlt, hmem⟩
  unfold DB.execUpdate
  cases hl : db.lookup tid with
  | none => exact ⟨hlt, hmem⟩
  | some r =>
    refine ⟨hlt, ?_⟩
    intro x hx
    rcases List.mem_map.mp hx with ⟨y, hy, rfl⟩
    by_cases hyid : (y.id == tid) = true
    · have hr := lookup_id_mem hl
      simp only [hyid, if_pos]
      have : (r.applyUpdate cols vals now).id = r.id := applyUpdate_id r cols vals now
      rw [this, hr.1]
      have := List.find?_some hl
      intro hXeq
      exact hmem r hr.2 (by rw [hr.1]; exact hXeq)
    · rw [if_neg hyid]
      exact hmem y hy

theorem freshFor_deleteById {db : DB} {X : Nat} (h : freshFor db X) (tid : Nat) :
    freshFor (db.deleteById tid) X := by
  rcases h with ⟨hlt, hmem⟩
  exact ⟨hlt, fun r hr => hmem r (List.mem_of_mem_filter hr)⟩

theorem freshFor_step (db : DB) (now : Nat) (req : Req) (X : Nat)
    (h : freshFor db X) : freshFor (step db now req).2.1 X := by
  cases req with
  | list => exact h
  | get id =>
    cases hl : db.lookup id with
    | none => simpa [step, TodoApi.get_todo, hl] using h
    | some r => simpa [step, TodoApi.get_todo, hl] using h
  | post data =>
    cases data with
    | none => simpa [step, TodoApi.create_todo] using h
    | some d =>
      cases ht : d.title with
      | none => simpa [step, TodoApi.create_todo, ht] using h
      | some t =>
        have hins := freshFor_insertRow h now t (d.description.getD (.str ""))
          (d.completed.getD (.bool false))
        simpa [step, TodoApi.create_todo, ht] using hins
  | put id data =>
    cases data with
    | none => simpa [step, TodoApi.update_todo] using h
    | some d =>
      by_cases hf : d.falsy = true
      · simpa [step, TodoApi.update_todo, hf] using h
      · cases hl : db.lookup id with
        | none => simpa [step, TodoApi.update_todo, hf, hl] using h
        | some r =>
          by_cases he : (update_fields d).isEmpty = true
          · simpa [step, TodoApi.update_todo, hf, hl, he] using h
          · cases hu : db.execUpdate id (update_fields d) (update_values d) now with
            | mk o db2 =>
              have hupd := freshFor_execUpdate h id (update_fields d) (update_values d) now
              rw [hu] at hupd
              cases o <;> simpa [step, TodoApi.update_todo, hf, hl, he, hu] using hupd
  | del id =>
    cases hl : db.lookup id with
    | none => simpa [step, TodoApi.delete_todo, hl] using h
    | some r => simpa [step, TodoApi.delete_todo, hl] using freshFor_deleteById h id

theorem freshFor_runSeq {db : DB} {X : Nat} (h : freshFor db X) :
    ∀ seq : List (Nat × Req), freshFor (runSeq db seq) X := by
  intro seq
  induction seq generalizing db with
  | nil => exact h
  | cons p ps ih => exact ih (freshFor_step db p.1 p.2 X h)

/-- A successful PUT reduces to one existence SELECT followed by one
UPDATE built from `update_fields`/`update_values`, and the RETURNING row
is the stored row rewritten in place. -/
theorem update_success_core (db : DB) (now todo_id : Nat) (d : Body) (r : Row)
    (hex : db.lookup todo_id = some r) (hf : update_fields d ≠ []) :
    TodoApi.update_todo db now todo_id (some d) =
      ({ body := .todo (serializeTodoDict (rowToDict
            (r.applyUpdate (update_fields d) (update_values d) now))), status := 200 },
       { db with rows := db.rows.map (fun x =>
            if x.id == todo_id then r.applyUpdate (update_fields d) (update_values d) now
            else x) },
       [DBOp.selectById todo_id,
        DBOp.update (update_fields d) (update_values d) todo_id]) := by
  have hfalsy : d.falsy = false := update_fields_ne_nil_falsy hf
  have hemp : (update_fields d).isEmpty = false := by
    cases h : update_fields d <;> simp_all
  have hu : db.execUpdate todo_id (update_fields d) (update_values d) now =
      (some (r.applyUpdate (update_fields d) (update_values d) now),
       { db with rows := db.rows.map (fun x =>
            if x.id == todo_id then r.applyUpdate (update_fields d) (update_values d) now
            else x) }) := by
    simp [DB.execUpdate, hex]
  simp [TodoApi.update_todo, hfalsy, hex, hemp, hu]

/-- After a successful PUT, looking the id up in the resulting table
yields exactly the row the UPDATE produced. -/
theorem update_success_lookup (db : DB) (now todo_id : Nat) (d : Body) (r : Row)
    (hex : db.lookup todo_id = some r) (hf : update_fields d ≠ []) :
    (TodoApi.update_todo db now todo_id (some d)).2.1.lookup todo_id =
      some (r.applyUpdate (update_fields d) (update_values d) now) := by
  rw [update_success_core db now todo_id d r hex hf]
  have hid : (r.applyUpdate (update_fields d) (update_values d) now).id = todo_id := by
    rw [applyUpdate_id]
    exact (lookup_id_mem hex).1
  exact find?_map_update todo_id _ hid db.rows r hex

/-- Every dictionary built from a row via `serializeTodoDict` carries its
timestamps as isoformat strings. -/
theorem serializeTodoDict_ts (r : Row) :
    (serializeTodoDict (rowToDict r)).tsSerialized :=
  ⟨⟨r.created_at, rfl⟩, ⟨r.updated_at, rfl⟩⟩

/-- The three absent-id operations all answer 404 with the contract body
and hand the table back unchanged, each after a single SELECT. -/
theorem notfound_core (db : DB) (X : Nat) (h : db.lookup X = none) :
    TodoApi.get_todo db X =
      ({ body := .err "Todo not found", status := 404 }, db, [.selectById X]) ∧
    (∀ now d, update_fields d ≠ [] →
      TodoApi.update_todo db now X (some d) =
        ({ body := .err "Todo not found", status := 404 }, db, [.selectById X])) ∧
    TodoApi.delete_todo db X =
      ({ body := .err "Todo not found", status := 404 }, db, [.selectById X]) := by
  refine ⟨by simp [TodoApi.get_todo, h], ?_, by simp [TodoApi.delete_todo, h]⟩
  intro now d hf
  have hfalsy : d.falsy = false := update_fields_ne_nil_falsy hf
  simp [TodoApi.update_todo, hfalsy, h]

/-! ### Claim theorems -/

/-- Claim C2, counterexample: on a table holding two todos created at the
same instant (ids 1 and 2, in insertion order), GET /api/todos returns them
in insertion order (ascending id), not in the descending-id order the claim
asserts for ties: the SELECT statement orders by `created_at` alone. -/
theorem get_todos_tiebreak_counterexample :
    (TodoApi.get_todos exDB).1.body =
      Resp.todos [serializeTodoDict (rowToDict exRow1), serializeTodoDict (rowToDict exRow2)] ∧
    ¬ (TodoApi.get_todos exDB).1.body =
      Resp.todos [serializeTodoDict (rowToDict exRow2), serializeTodoDict (rowToDict exRow1)] := by
  constructor
  · decide
  · decide

/-- Claim C2 as amended: GET /api/todos returns exactly the stored todos
(a permutation of the table) as a sequence sorted by descending
`created_at`, each serialized per element; the query specifies no id
tie-break, so rows sharing a `created_at` stay in stored order. -/
theorem get_todos_sorted_desc (db : DB) :
    ∃ l : List Row, l.Perm db.rows ∧ List.Sorted createdDesc l ∧
      TodoApi.get_todos db =
        ({ body := .todos (l.map (fun r => serializeTodoDict (rowToDict r))), status := 200 },
          db, [.selectAllOrderByCreatedAtDesc]) :=
  ⟨db.rows.insertionSort createdDesc, List.perm_insertionSort _ _,
    List.sorted_insertionSort _ _, rfl⟩

/-- Claim C4: POST with a non-null object body returns 400
"Title is required" and inserts nothing when the `title` key is absent;
when the key is present with any value it inserts the row and returns
201 with the created todo, its generated id and its timestamps. -/
theorem create_title_required (db : DB) (now : Nat) (d : Body) :
    (d.title = none → TodoApi.create_todo db now (some d) =
        ({ body := .err "Title is required", status := 400 }, db, [])) ∧
    (∀ t, d.title = some t →
      ∃ row db2, TodoApi.create_todo db now (some d) =
          ({ body := .todo (serializeTodoDict (rowToDict row)), status := 201 }, db2,
            [.insert t (d.description.getD (.str "")) (d.completed.getD (.bool false))]) ∧
        row.id = db.nextId ∧ row.title = t ∧ row.created_at = now ∧ row.updated_at = now ∧
        db2.rows = db.rows ++ [row] ∧ db2.nextId = db.nextId + 1) := by
  constructor
  · intro ht
    simp [TodoApi.create_todo, ht]
  · intro t ht
    refine ⟨(db.insertRow now t (d.description.getD (.str "")) (d.completed.getD (.bool false))).1,
            (db.insertRow now t (d.description.getD (.str "")) (d.completed.getD (.bool false))).2,
            ?_, rfl, rfl, rfl, rfl, rfl, rfl⟩
    simp [TodoApi.create_todo, ht]

/-- Claim C4 witness: with no `title` key the store is untouched; with a
`title` key (here the empty string) a row is appended. -/
theorem create_title_required_witness :
    (TodoApi.create_todo exDB 7 (some junkBody)).2.1 = exDB ∧
    ∃ row db2, TodoApi.create_todo exDB 7
        (some { title := some (.str ""), description := none, completed := none,
                otherKeys := 0 }) =
        ({ body := .todo (serializeTodoDict (rowToDict row)), status := 201 }, db2,
          [.insert (.str "") (.str "") (.bool false)]) ∧
      row.id = exDB.nextId ∧ row.title = .str "" ∧ row.created_at = 7 ∧ row.updated_at = 7 ∧
      db2.rows = exDB.rows ++ [row] ∧ db2.nextId = exDB.nextId + 1 := by
  constructor
  · rw [(create_title_required exDB 7 junkBody).1 rfl]
  · exact (create_title_required exDB 7
      { title := some (.str ""), description := none, completed := none, otherKeys := 0 }).2
      (.str "") rfl

/-- Claim C5: a PUT whose body is the empty object gets 400
"No data provided"; a PUT whose body is a non-empty object with none of
the keys title, description, completed, on an existing id, gets 400
"No valid fields to update"; in both cases the table is returned
unchanged. -/
theorem update_body_validation (db : DB) (now todo_id : Nat) (d : Body) :
    (d.falsy = true → TodoApi.update_todo db now todo_id (some d) =
        ({ body := .err "No data provided", status := 400 }, db, [])) ∧
    (d.falsy = false → update_fields d = [] →
      ∀ r, db.lookup todo_id = some r →
        TodoApi.update_todo db now todo_id (some d) =
          ({ body := .err "No valid fields to update", status := 400 }, db,
            [.selectById todo_id])) := by
  constructor
  · intro hf
    simp [TodoApi.update_todo, hf]
  · intro hf he r hr
    simp [TodoApi.update_todo, hf, hr, he]

/-- Claim C5 witness: the two 400 paths at concrete inputs, table
unchanged. -/
theorem update_body_validation_witness :
    emptyBody.falsy = true ∧ junkBody.falsy = false ∧ update_fields junkBody = [] ∧
    TodoApi.update_todo exDB 9 1 (some emptyBody) =
      ({ body := .err "No data provided", status := 400 }, exDB, []) ∧
    TodoApi.update_todo exDB 9 1 (some junkBody) =
      ({ body := .err "No valid fields to update", status := 400 }, exDB,
        [.selectById 1]) :=
  ⟨by decide, by decide, by decide,
    (update_body_validation exDB 9 1 emptyBody).1 (by decide),
    (update_body_validation exDB 9 1 junkBody).2 (by decide) (by decide) exRow1 rfl⟩

/-- Claim C7: in any POST body carrying a `title` key, each omitted
optional key defaults independently at creation — an omitted description
becomes the empty string and an omitted completed becomes false in the
created row; a body holding only a title therefore gets both defaults. -/
theorem create_defaults (db : DB) (now : Nat) (d : Body) (t : JVal)
    (ht : d.title = some t) :
    ∃ row db2 ops, TodoApi.create_todo db now (some d) =
        ({ body := .todo (serializeTodoDict (rowToDict row)), status := 201 }, db2, ops) ∧
      (d.description = none → row.description = .str "") ∧
      (d.completed = none → row.completed = .bool false) := by
  refine ⟨(db.insertRow now t (d.description.getD (.str ""))
            (d.completed.getD (.bool false))).1,
          (db.insertRow now t (d.description.getD (.str ""))
            (d.completed.getD (.bool false))).2,
          [.insert t (d.description.getD (.str "")) (d.completed.getD (.bool false))],
          ?_, ?_, ?_⟩
  · simp [TodoApi.create_todo, ht]
  · intro hd
    simp [DB.insertRow, hd]
  · intro hc
    simp [DB.insertRow, hc]

/-- Claim C7 witness: a title-only body gets both defaults, and a mixed
body with completed supplied but description omitted still gets the
description default. -/
theorem create_defaults_witness :
    titleBody.description = none ∧ titleBody.completed = none ∧
    mixedBody.description = none ∧ mixedBody.completed = some (.bool true) ∧
    (∃ row db2 ops, TodoApi.create_todo exDB 7 (some titleBody) =
        ({ body := .todo (serializeTodoDict (rowToDict row)), status := 201 }, db2, ops) ∧
      (titleBody.description = none → row.description = .str "") ∧
      (titleBody.completed = none → row.completed = .bool false)) ∧
    (∃ row db2 ops, TodoApi.create_todo exDB 7 (some mixedBody) =
        ({ body := .todo (serializeTodoDict (rowToDict row)), status := 201 }, db2, ops) ∧
      (mixedBody.description = none → row.description = .str "") ∧
      (mixedBody.completed = none → row.completed = .bool false)) :=
  ⟨rfl, rfl, rfl, rfl,
    create_defaults exDB 7 titleBody (.str "t2") rfl,
    create_defaults exDB 7 mixedBody (.str "X") rfl⟩

/-- Claim C9: the empty-body check of the PUT handler precedes the
existence check: a falsy body (JSON null or empty object) yields 400
"No data provided" for every table state, including one where the id is
absent, with an empty statement trace; for a non-empty body the trace
starts with the existence SELECT. -/
theorem update_empty_body_first (db : DB) (now todo_id : Nat) (data : Option Body) :
    (notData data = true → TodoApi.update_todo db now todo_id data =
        ({ body := .err "No data provided", status := 400 }, db, [])) ∧
    (∀ d, data = some d → d.falsy = false →
      ∃ rest, (TodoApi.update_todo db now todo_id data).2.2 =
        DBOp.selectById todo_id :: rest) := by
  constructor
  · intro hnd
    cases data with
    | none => simp [TodoApi.update_todo]
    | some d =>
      have hf : d.falsy = true := by simpa [notData] using hnd
      simp [TodoApi.update_todo, hf]
  · intro d hd hf
    subst hd
    cases hl : db.lookup todo_id with
    | none => exact ⟨[], by simp [TodoApi.update_todo, hf, hl]⟩
    | some r =>
      by_cases he : (update_fields d).isEmpty = true
      · exact ⟨[], by simp [TodoApi.update_todo, hf, hl, he]⟩
      · cases hu : db.execUpdate todo_id (update_fields d) (update_values d) now with
        | mk o db2 =>
          cases o with
          | none =>
            exact ⟨[.update (update_fields d) (update_values d) todo_id],
              by simp [TodoApi.update_todo, hf, hl, he, hu]⟩
          | some r2 =>
            exact ⟨[.update (update_fields d) (update_values d) todo_id],
              by simp [TodoApi.update_todo, hf, hl, he, hu]⟩

/-- Claim C9 witness: an empty-object PUT on an id absent from the table
(id 7) returns 400 "No data provided" without touching the store. -/
theorem update_empty_body_first_witness :
    notData (some emptyBody) = true ∧
    TodoApi.update_todo exDB 9 7 (some emptyBody) =
      ({ body := .err "No data provided", status := 400 }, exDB, []) :=
  ⟨by decide, (update_empty_body_first exDB 9 7 (some emptyBody)).1 (by decide)⟩

/-- Claim C10: the legacy module-level handlers of `backend/app.py` and
the factory handlers of `backend/src/todo_api/app.py` agree on every
request (status, body, table effect and statement trace alike); the root
endpoints differ only in the version string, `1.0` against `1.0.0`. -/
theorem legacy_factory_equivalent :
    (∀ db, Legacy.get_todos db = TodoApi.get_todos db) ∧
    (∀ db todo_id, Legacy.get_todo db todo_id = TodoApi.get_todo db todo_id) ∧
    (∀ db now data, Legacy.create_todo db now data = TodoApi.create_todo db now data) ∧
    (∀ db now todo_id data,
      Legacy.update_todo db now todo_id data = TodoApi.update_todo db now todo_id data) ∧
    (∀ db todo_id, Legacy.delete_todo db todo_id = TodoApi.delete_todo db todo_id) ∧
    Legacy.health_check = TodoApi.health_check ∧
    Legacy.root.status = TodoApi.root.status ∧
    Legacy.root.body = .rootInfo "Todo List API" "1.0" endpointDirectory ∧
    TodoApi.root.body = .rootInfo "Todo List API" "1.0.0" endpointDirectory ∧
    Legacy.root.body ≠ TodoApi.root.body :=
  ⟨fun _ => rfl, fun _ _ => rfl, fun _ _ _ => rfl, fun _ _ _ _ => rfl, fun _ _ => rfl,
    rfl, rfl, rfl, rfl, by decide⟩

/-- Claim C1: a PUT on an existing id whose body carries at least one
recognized key builds the mutation from exactly the present subset of
title, description, completed — in that stable order — executes it as
one UPDATE statement (the only statement after the existence SELECT,
with nothing following it), refreshes `updated_at`, and answers with the
very row RETURNING produced, which is the row now stored: no second
read happens after the mutation. -/
theorem update_put_single_statement (db : DB) (now todo_id : Nat) (d : Body) (r : Row)
    (hex : db.lookup todo_id = some r) (hf : update_fields d ≠ []) :
    update_fields d = [Col.title, Col.description, Col.completed].filter
      (fun c => match c with
        | Col.title => d.title.isSome
        | Col.description => d.description.isSome
        | Col.completed => d.completed.isSome) ∧
    (TodoApi.update_todo db now todo_id (some d)).2.2 =
      [DBOp.selectById todo_id,
       DBOp.update (update_fields d) (update_values d) todo_id] ∧
    (TodoApi.update_todo db now todo_id (some d)).1 =
      { body := .todo (serializeTodoDict (rowToDict
          (r.applyUpdate (update_fields d) (update_values d) now))), status := 200 } ∧
    (r.applyUpdate (update_fields d) (update_values d) now).updated_at = now ∧
    (TodoApi.update_todo db now todo_id (some d)).2.1.lookup todo_id =
      some (r.applyUpdate (update_fields d) (update_values d) now) := by
  have hcore := update_success_core db now todo_id d r hex hf
  refine ⟨update_fields_eq_filter d, ?_, ?_, rfl, update_success_lookup db now todo_id d r hex hf⟩
  · rw [hcore]
  · rw [hcore]

/-- Claim C1 witness: updating only the title of the sole stored row. -/
theorem update_put_single_statement_witness :
    exDB1.lookup 1 = some exRow1 ∧ update_fields titleBody ≠ [] ∧
    (TodoApi.update_todo exDB1 9 1 (some titleBody)).2.2 =
      [DBOp.selectById 1, DBOp.update (update_fields titleBody) (update_values titleBody) 1] ∧
    (TodoApi.update_todo exDB1 9 1 (some titleBody)).2.1.lookup 1 =
      some (exRow1.applyUpdate (update_fields titleBody) (update_values titleBody) 9) :=
  ⟨rfl, by decide,
    (update_put_single_statement exDB1 9 1 titleBody exRow1 rfl (by decide)).2.1,
    (update_put_single_statement exDB1 9 1 titleBody exRow1 rfl (by decide)).2.2.2.2⟩

/-- Claim C6: after a successful PUT the stored row keeps the prior
value of every recognized field absent from the body, keeps its id, and
keeps `created_at` untouched. -/
theorem update_preserves_absent_fields (db : DB) (now todo_id : Nat) (d : Body) (r : Row)
    (hex : db.lookup todo_id = some r) (hf : update_fields d ≠ []) :
    (TodoApi.update_todo db now todo_id (some d)).1.status = 200 ∧
    (TodoApi.update_todo db now todo_id (some d)).2.1.lookup todo_id =
      some (r.applyUpdate (update_fields d) (update_values d) now) ∧
    (d.title = none →
      (r.applyUpdate (update_fields d) (update_values d) now).title = r.title) ∧
    (d.description = none →
      (r.applyUpdate (update_fields d) (update_values d) now).description = r.description) ∧
    (d.completed = none →
      (r.applyUpdate (update_fields d) (update_values d) now).completed = r.completed) ∧
    (r.applyUpdate (update_fields d) (update_values d) now).created_at = r.created_at ∧
    (r.applyUpdate (update_fields d) (update_values d) now).id = r.id := by
  refine ⟨?_, update_success_lookup db now todo_id d r hex hf, ?_, ?_, ?_,
    applyUpdate_created_at r _ _ now, applyUpdate_id r _ _ now⟩
  · rw [update_success_core db now todo_id d r hex hf]
  · intro ht
    have hnot : Col.title ∉ update_fields d := by
      rw [mem_update_fields_title, ht]; simp
    exact foldl_applyCol_title _ r
      (fun v hv => hnot (List.of_mem_zip hv).1)
  · intro hd
    have hnot : Col.description ∉ update_fields d := by
      rw [mem_update_fields_description, hd]; simp
    exact foldl_applyCol_description _ r
      (fun v hv => hnot (List.of_mem_zip hv).1)
  · intro hc
    have hnot : Col.completed ∉ update_fields d := by
      rw [mem_update_fields_completed, hc]; simp
    exact foldl_applyCol_completed _ r
      (fun v hv => hnot (List.of_mem_zip hv).1)

/-- Claim C6 witness: a completed-only PUT on the sole stored row leaves
title, description and `created_at` as they were. -/
theorem update_preserves_absent_fields_witness :
    exDB1.lookup 1 = some exRow1 ∧
    update_fields { title := none, description := none, completed := some (.bool true),
                    otherKeys := 0 } ≠ [] ∧
    (exRow1.applyUpdate
        (update_fields { title := none, description := none, completed := some (.bool true),
                         otherKeys := 0 })
        (update_values { title := none, description := none, completed := some (.bool true),
                         otherKeys := 0 }) 9).title = exRow1.title ∧
    (exRow1.applyUpdate
        (update_fields { title := none, description := none, completed := some (.bool true),
                         otherKeys := 0 })
        (update_values { title := none, description := none, completed := some (.bool true),
                         otherKeys := 0 }) 9).created_at = exRow1.created_at :=
  ⟨rfl, by decide,
    (update_preserves_absent_fields exDB1 9 1
      { title := none, description := none, completed := some (.bool true), otherKeys := 0 }
      exRow1 rfl (by decide)).2.2.1 rfl,
    (update_preserves_absent_fields exDB1 9 1
      { title := none, description := none, completed := some (.bool true), otherKeys := 0 }
      exRow1 rfl (by decide)).2.2.2.2.2.1⟩

/-- Claim C8: `serialize_datetime` sends a datetime to its isoformat
string and every other value to itself, and each handler that emits a
Todo — list (per element), get, create, update — emits it with both
timestamp fields already serialized. -/
theorem timestamps_serialized (db : DB) (now todo_id : Nat) (data : Option Body) :
    (∀ t, serialize_datetime (.dt t) = .str (isoformat t)) ∧
    (∀ v : PyVal, (∀ t, v ≠ .dt t) → serialize_datetime v = v) ∧
    (∀ l, (TodoApi.get_todos db).1.body = .todos l → ∀ dct ∈ l, dct.tsSerialized) ∧
    (∀ dct, (TodoApi.get_todo db todo_id).1.body = .todo dct → dct.tsSerialized) ∧
    (∀ dct, (TodoApi.create_todo db now data).1.body = .todo dct → dct.tsSerialized) ∧
    (∀ dct, (TodoApi.update_todo db now todo_id data).1.body = .todo dct →
      dct.tsSerialized) := by
  refine ⟨fun t => rfl, ?_, ?_, ?_, ?_, ?_⟩
  · intro v hv
    cases v with
    | dt t => exact absurd rfl (hv t)
    | str s => rfl
    | bool b => rfl
    | num n => rfl
    | null => rfl
  · intro l hl dct hdct
    have hl2 : Resp.todos (db.selectAllOrdered.map (fun r => serializeTodoDict (rowToDict r)))
        = Resp.todos l := hl
    injection hl2 with hl3
    rw [← hl3] at hdct
    rcases List.mem_map.mp hdct with ⟨r, _, rfl⟩
    exact serializeTodoDict_ts r
  · intro dct hd
    cases hl : db.lookup todo_id with
    | none => simp [TodoApi.get_todo, hl] at hd
    | some r =>
      have : Resp.todo (serializeTodoDict (rowToDict r)) = Resp.todo dct := by
        simpa [TodoApi.get_todo, hl] using hd
      injection this with h2
      rw [← h2]
      exact serializeTodoDict_ts r
  · intro dct hd
    cases data with
    | none => simp [TodoApi.create_todo] at hd
    | some d =>
      cases ht : d.title with
      | none => simp [TodoApi.create_todo, ht] at hd
      | some t =>
        have : Resp.todo (serializeTodoDict (rowToDict
            (db.insertRow now t (d.description.getD (.str ""))
              (d.completed.getD (.bool false))).1)) = Resp.todo dct := by
          simpa [TodoApi.create_todo, ht] using hd
        injection this with h2
        rw [← h2]
        exact serializeTodoDict_ts _
  · intro dct hd
    cases data with
    | none => simp [TodoApi.update_todo] at hd
    | some d =>
      by_cases hfalsy : d.falsy = true
      · simp [TodoApi.update_todo, hfalsy] at hd
      · cases hl : db.lookup todo_id with
        | none => simp [TodoApi.update_todo, hfalsy, hl] at hd
        | some r =>
          by_cases he : (update_fields d).isEmpty = true
          · simp [TodoApi.update_todo, hfalsy, hl, he] at hd
          · cases hu : db.execUpdate todo_id (update_fields d) (update_values d) now with
            | mk o db2 =>
              cases o with
              | none => simp [TodoApi.update_todo, hfalsy, hl, he, hu] at hd
              | some r2 =>
                have : Resp.todo (serializeTodoDict (rowToDict r2)) = Resp.todo dct := by
                  simpa [TodoApi.update_todo, hfalsy, hl, he, hu] using hd
                injection this with h2
                rw [← h2]
                exact serializeTodoDict_ts r2

/-- Claim C8 witness: the GET-by-id response for the stored fixture row
carries isoformat timestamp strings. -/
theorem timestamps_serialized_witness :
    serializeTodoDict (rowToDict exRow2) = serializeTodoDict (rowToDict exRow2) ∧
    TodoDict.tsSerialized (serializeTodoDict (rowToDict exRow2)) :=
  ⟨rfl, (timestamps_serialized exDB 9 2 none).2.2.2.1
    (serializeTodoDict (rowToDict exRow2)) rfl⟩

/-- Claim C3: GET, PUT (with a body holding at least one recognized
field) and DELETE on an id absent from the table all answer 404 with
body error "Todo not found" and leave the table unchanged; and once a
DELETE of id X succeeds, every later GET, PUT or DELETE on X — after
any further sequence of requests — answers 404. -/
theorem missing_id_responses (db : DB) (X : Nat) (hwf : db.wf) :
    (db.lookup X = none →
      TodoApi.get_todo db X =
        ({ body := .err "Todo not found", status := 404 }, db, [.selectById X]) ∧
      (∀ now d, update_fields d ≠ [] →
        TodoApi.update_todo db now X (some d) =
          ({ body := .err "Todo not found", status := 404 }, db, [.selectById X])) ∧
      TodoApi.delete_todo db X =
        ({ body := .err "Todo not found", status := 404 }, db, [.selectById X])) ∧
    (∀ r, db.lookup X = some r →
      (TodoApi.delete_todo db X).1 =
        { body := .msg "Todo deleted successfully", status := 200 } ∧
      ∀ seq : List (Nat × Req),
        (TodoApi.get_todo (runSeq (TodoApi.delete_todo db X).2.1 seq) X).1 =
          { body := .err "Todo not found", status := 404 } ∧
        (∀ now d, update_fields d ≠ [] →
          (TodoApi.update_todo (runSeq (TodoApi.delete_todo db X).2.1 seq) now X
              (some d)).1 =
            { body := .err "Todo not found", status := 404 }) ∧
        (TodoApi.delete_todo (runSeq (TodoApi.delete_todo db X).2.1 seq) X).1 =
          { body := .err "Todo not found", status := 404 }) := by
  constructor
  · exact fun h => notfound_core db X h
  · intro r hex
    have hresp : (TodoApi.delete_todo db X).1 =
        { body := .msg "Todo deleted successfully", status := 200 } := by
      simp [TodoApi.delete_todo, hex]
    refine ⟨hresp, ?_⟩
    intro seq
    have hdb1 : (TodoApi.delete_todo db X).2.1 = db.deleteById X := by
      simp [TodoApi.delete_todo, hex]
    have hfresh1 : freshFor (db.deleteById X) X := by
      constructor
      · have hmem := lookup_id_mem hex
        have := hwf r hmem.2
        rw [hmem.1] at this
        exact this
      · intro x hx
        have := (List.mem_filter.mp hx).2
        simpa using this
    have hfresh2 : freshFor (runSeq (TodoApi.delete_todo db X).2.1 seq) X := by
      rw [hdb1]
      exact freshFor_runSeq hfresh1 seq
    have hnone := freshFor_lookup_none hfresh2
    have hcore := notfound_core _ X hnone
    refine ⟨by rw [hcore.1], ?_, by rw [hcore.2.2]⟩
    intro now d hf
    rw [hcore.2.1 now d hf]

/-- Claim C3 witness: delete the row with id 2, serve one unrelated
create, then GET/PUT/DELETE on id 2 all answer 404. -/
theorem missing_id_responses_witness :
    exDB.wf ∧ exDB.lookup 2 = some exRow2 ∧
    (TodoApi.delete_todo exDB 2).1 =
      { body := .msg "Todo deleted successfully", status := 200 } ∧
    (TodoApi.get_todo (runSeq (TodoApi.delete_todo exDB 2).2.1
        [(8, Req.post (some titleBody))]) 2).1 =
      { body := .err "Todo not found", status := 404 } ∧
    (TodoApi.delete_todo (runSeq (TodoApi.delete_todo exDB 2).2.1
        [(8, Req.post (some titleBody))]) 2).1 =
      { body := .err "Todo not found", status := 404 } := by
  have h := (missing_id_responses exDB 2 (by decide)).2 exRow2 rfl
  exact ⟨by decide, rfl, h.1, (h.2 [(8, Req.post (some titleBody))]).1,
    (h.2 [(8, Req.post (some titleBody))]).2.2⟩

end TodoSpec
